import Mathlib

/-!
Verification of `seed.py`: a sequential seeding script that polls a server
for reachability, logs in, reads a JSON seed file, and for each item POSTs
a credential profile followed by a discovery profile.

The script is embedded shallowly: every external interaction (HTTP
responses, the file system, environment variables) is an oracle packaged in
an `Env`; running the script is a pure function `run : Env → RunResult`
returning the trace of HTTP calls issued, the messages printed, the number
of `time.sleep(1)` invocations, and the process outcome.
-/

namespace Seed

/-- JSON values, as produced by `json.load` / consumed by `json.dumps`.
Objects keep the key order of the underlying Python dict (insertion order);
keys are unique in a dict, so first-match lookup is used. -/
inductive Json where
  | null : Json
  | bool (b : Bool) : Json
  | num (n : Int) : Json
  | str (s : String) : Json
  | arr (elems : List Json) : Json
  | obj (fields : List (String × Json)) : Json

/-- First-match association lookup on a dict's fields. -/
def lookupField : List (String × Json) → String → Option Json
  | [], _ => none
  | (k, v) :: rest, key => if k = key then some v else lookupField rest key

/-- Python `item[key]` subscription: `some v` when `item` is a dict holding
`key`; `none` models the raised exception (`KeyError` on a dict missing the
key, `TypeError` on a non-dict). -/
def Json.getKey : Json → String → Option Json
  | .obj kvs, key => lookupField kvs key
  | _, _ => none

/-- Python `item.get(key, dflt)`: `none` models the `AttributeError` raised
when `item` is not a dict. -/
def pyGet (item : Json) (key : String) (dflt : Json) : Option Json :=
  match item with
  | .obj kvs => some ((lookupField kvs key).getD dflt)
  | _ => none

/-- One lowercase hex digit. -/
def hexDigit (n : Nat) : Char :=
  if n < 10 then Char.ofNat (48 + n) else Char.ofNat (87 + n)

/-- Four lowercase hex digits, as in Python's `\uXXXX` escapes. -/
def hex4 (n : Nat) : String :=
  String.mk [hexDigit (n / 4096 % 16), hexDigit (n / 256 % 16),
             hexDigit (n / 16 % 16), hexDigit (n % 16)]

/-- Escape one character the way `json.dumps` (defaults: `ensure_ascii=True`)
does: named escapes for `"` `\` and common controls, `\uXXXX` for other
controls and all non-ASCII, surrogate pairs above the BMP. -/
def escapeChar (c : Char) : String :=
  if c = '"' then "\\\""
  else if c = '\\' then "\\\\"
  else if c = '\n' then "\\n"
  else if c = '\t' then "\\t"
  else if c = '\r' then "\\r"
  else if c.toNat = 8 then "\\b"
  else if c.toNat = 12 then "\\f"
  else if c.toNat < 32 then "\\u" ++ hex4 c.toNat
  else if c.toNat < 128 then String.singleton c
  else if c.toNat < 65536 then "\\u" ++ hex4 c.toNat
  else
    "\\u" ++ hex4 (55296 + (c.toNat - 65536) / 1024) ++
    "\\u" ++ hex4 (56320 + (c.toNat - 65536) % 1024)

/-- Escape a whole string for `json.dumps`. -/
def escapeString (s : String) : String :=
  s.data.foldl (fun acc c => acc ++ escapeChar c) ""

mutual

/-- Python `json.dumps` with default arguments: item separator `", "`,
key separator `": "`, no indent, insertion key order. -/
def dumps : Json → String
  | .null => "null"
  | .bool b => if b then "true" else "false"
  | .num n => toString n
  | .str s => "\"" ++ escapeString s ++ "\""
  | .arr xs => "[" ++ dumpsArr xs ++ "]"
  | .obj kvs => "\x7b" ++ dumpsObj kvs ++ "\x7d"

/-- Comma-joined array elements for `dumps`. -/
def dumpsArr : List Json → String
  | [] => ""
  | [x] => dumps x
  | x :: y :: xs => dumps x ++ ", " ++ dumpsArr (y :: xs)

/-- Comma-joined `"key": value` pairs for `dumps`. -/
def dumpsObj : List (String × Json) → String
  | [] => ""
  | [(k, v)] => "\"" ++ escapeString k ++ "\": " ++ dumps v
  | (k, v) :: p :: kvs =>
      "\"" ++ escapeString k ++ "\": " ++ dumps v ++ ", " ++ dumpsObj (p :: kvs)

end

/-- An HTTP response as seen through the `requests` library: its status
code, its parsed JSON body (`res.json()`), and its raw text (`res.text`). -/
structure Resp where
  status : Nat
  body : Json
  text : String

/-- The oracle for everything outside the script: poll outcomes (per attempt
`i`, `none` models `requests.exceptions.ConnectionError`, `some r` a
response of any status), the resolved environment variables, the login
response, whether `poll_input_win_a.json` exists, the content of each file
(`none` = missing or invalid JSON), and the response to the n-th POST made
after login (credential and discovery POSTs, counted together in issue
order). -/
structure Env where
  pollResp : Nat → Option Resp
  adminUser : String
  adminPass : String
  loginResp : Resp
  winFileExists : Bool
  fileContent : String → Option (List Json)
  postResp : Nat → Resp

/-- One HTTP call issued by the script: the readiness `GET /login`, the
`POST /login`, a `POST /api/v1/credentials`, or a
`POST /api/v1/discovery_profiles`, each with its JSON body. -/
inductive Call where
  | getLogin : Call
  | postLogin (body : Json) : Call
  | postCred (body : Json) : Call
  | postDisc (body : Json) : Call

/-- One printed message, with its dynamic parts. -/
inductive Msg where
  | waiting : Msg
  | reachable : Msg
  | unreachable : Msg
  | loggingIn (user : String) : Msg
  | loginFailed (status : Nat) (text : String) : Msg
  | loginSuccessful : Msg
  | readingSeed (file : String) : Msg
  | creatingCred (rid : Json) : Msg
  | credFailed (text : String) : Msg
  | credCreated (id : Json) : Msg
  | creatingDisc (rid : Json) : Msg
  | discFailed (text : String) : Msg
  | discCreated (id : Json) : Msg
  | doneProcessing : Msg

/-- How the process ends: `exited c` is `sys.exit(c)` or normal end of
script (`exited 0`); `fatal` is an unhandled Python exception propagating
(KeyError / TypeError / IO or parse error). -/
inductive Outcome where
  | exited (code : Nat) : Outcome
  | fatal : Outcome
deriving DecidableEq, Repr

/-- Result of one run: HTTP calls in issue order, printed messages in
order, number of `time.sleep(1)` calls, and the outcome. -/
structure RunResult where
  calls : List Call
  msgs : List Msg
  sleeps : Nat
  outcome : Outcome

/-- The readiness loop `for i in range(10)` starting at attempt `i` with
`fuel` attempts left: returns (attempts made, sleeps performed, success).
An attempt succeeds when `requests.get` returns (any status); on
`ConnectionError` the script sleeps one second and retries. -/
def poll (pr : Nat → Option Resp) : Nat → Nat → Nat × Nat × Bool
  | _, 0 => (0, 0, false)
  | i, fuel + 1 =>
    match pr i with
    | some _ => (1, 0, true)
    | none =>
      let t := poll pr (i + 1) fuel
      (t.1 + 1, t.2.1 + 1, t.2.2)

/-- `item.get('request_id', 'imported')` followed by `+ "_creds"` /
`+ "_discovery"`: `none` models the exception when `item` is not a dict
(`AttributeError`) or the value is not a string (`TypeError` on `+`). -/
def nameBase (item : Json) : Option String :=
  match pyGet item "request_id" (.str "imported") with
  | some (.str s) => some s
  | _ => none

/-- `item.get('request_id', 'target')`, used only in progress messages,
after `nameBase` already guaranteed `item` is a dict. -/
def ridShown (item : Json) : Json :=
  (pyGet item "request_id" (.str "target")).getD (.str "target")

/-- The credential-creation payload `cred_payload` for an item whose
name base is `rid` and whose `credentials` value is `creds`. -/
def credPayload (rid : String) (creds : Json) : Json :=
  .obj [("name", .str (rid ++ "_creds")),
        ("protocol", .str "winrm"),
        ("payload", .str (dumps creds))]

/-- The discovery-creation payload `disc_payload`. -/
def discPayload (rid : String) (target port credId : Json) : Json :=
  .obj [("name", .str (rid ++ "_discovery")),
        ("target", target),
        ("port", port),
        ("credential_profile_id", credId),
        ("auto_provision", .bool true),
        ("auto_run", .bool true)]

/-- Result of processing one seed item: calls issued, messages printed,
next POST index, and whether the loop continues (`ok = false` models an
unhandled exception aborting the whole run; a skipped item has
`ok = true`). -/
structure ItemRes where
  calls : List Call
  msgs : List Msg
  nextIdx : Nat
  ok : Bool

/-- One iteration of the `for item in data` loop, with `k` the index of the
next POST response in the oracle. Mirrors the source order: build
`cred_payload` (may raise), print, POST, check status (skip on failure),
extract `id` (may raise), build `disc_payload` (may raise), print, POST,
check status (skip on failure), extract `id` (may raise). -/
def doItem (env : Env) (k : Nat) (item : Json) : ItemRes :=
  match nameBase item with
  | none => ⟨[], [], k, false⟩
  | some rid =>
    match Json.getKey item "credentials" with
    | none => ⟨[], [], k, false⟩
    | some creds =>
      let cp := credPayload rid creds
      let m1 := Msg.creatingCred (ridShown item)
      let res := env.postResp k
      if ¬ (res.status = 201 ∨ res.status = 200) then
        ⟨[.postCred cp], [m1, .credFailed res.text], k + 1, true⟩
      else
        match Json.getKey res.body "id" with
        | none => ⟨[.postCred cp], [m1], k + 1, false⟩
        | some credId =>
          let m2 := Msg.credCreated credId
          match Json.getKey item "target" with
          | none => ⟨[.postCred cp], [m1, m2], k + 1, false⟩
          | some target =>
            match Json.getKey item "port" with
            | none => ⟨[.postCred cp], [m1, m2], k + 1, false⟩
            | some port =>
              let dp := discPayload rid target port credId
              let m3 := Msg.creatingDisc (ridShown item)
              let res2 := env.postResp (k + 1)
              if ¬ (res2.status = 201 ∨ res2.status = 200) then
                ⟨[.postCred cp, .postDisc dp],
                 [m1, m2, m3, .discFailed res2.text], k + 2, true⟩
              else
                match Json.getKey res2.body "id" with
                | none => ⟨[.postCred cp, .postDisc dp], [m1, m2, m3], k + 2, false⟩
                | some discId =>
                  ⟨[.postCred cp, .postDisc dp],
                   [m1, m2, m3, .discCreated discId], k + 2, true⟩

/-- The whole `for item in data` loop from POST index `k`: calls, messages,
and `true` unless an unhandled exception aborted the run. -/
def procItems (env : Env) : List Json → Nat → List Call × List Msg × Bool
  | [], _ => ([], [], true)
  | item :: rest, k =>
    let r := doItem env k item
    if r.ok then
      let t := procItems env rest r.nextIdx
      (r.calls ++ t.1, r.msgs ++ t.2.1, t.2.2)
    else
      (r.calls, r.msgs, false)

/-- The seed file the script opens: `poll_input_win_a.json` when it exists,
else `poll_input.json`. -/
def seedFileName (env : Env) : String :=
  if env.winFileExists then "poll_input_win_a.json" else "poll_input.json"

/-- The whole script, top to bottom: readiness poll (exit 1 when all 10
attempts fail), login POST (exit 1 on non-200, fatal on missing `token`),
seed-file selection and load (fatal on missing/invalid file), the per-item
loop, and the completion message with exit 0. -/
def run (env : Env) : RunResult :=
  let p := poll env.pollResp 0 10
  let pollCalls := List.replicate p.1 Call.getLogin
  if ¬ p.2.2 then
    ⟨pollCalls, [.waiting, .unreachable], p.2.1, .exited 1⟩
  else
    let loginBody := Json.obj [("username", .str env.adminUser),
                               ("password", .str env.adminPass)]
    let calls1 := pollCalls ++ [Call.postLogin loginBody]
    let msgs1 : List Msg := [.waiting, .reachable, .loggingIn env.adminUser]
    if env.loginResp.status ≠ 200 then
      ⟨calls1, msgs1 ++ [.loginFailed env.loginResp.status env.loginResp.text],
       p.2.1, .exited 1⟩
    else
      match Json.getKey env.loginResp.body "token" with
      | none => ⟨calls1, msgs1, p.2.1, .fatal⟩
      | some _ =>
        let msgs2 := msgs1 ++ [.loginSuccessful, .readingSeed (seedFileName env)]
        match env.fileContent (seedFileName env) with
        | none => ⟨calls1, msgs2, p.2.1, .fatal⟩
        | some items =>
          let t := procItems env items 0
          if t.2.2 then
            ⟨calls1 ++ t.1, msgs2 ++ t.2.1 ++ [.doneProcessing], p.2.1, .exited 0⟩
          else
            ⟨calls1 ++ t.1, msgs2 ++ t.2.1, p.2.1, .fatal⟩

/-- The `id` field the script extracts from a successful creation response
(`res.json()['id']`), with a placeholder for the fatal missing case. -/
def getId (r : Resp) : Json := (Json.getKey r.body "id").getD .null

/-- A creation response the script treats as fully successful: accepted
status (`in [201, 200]`) and an `id` field present in the body. -/
def goodResp (r : Resp) : Prop :=
  (r.status = 201 ∨ r.status = 200) ∧ ∃ v, Json.getKey r.body "id" = some v

/-- A seed item holding every field the loop body reads without raising:
a usable name base, and `credentials`, `target` and `port` keys. -/
def validItem (item : Json) : Prop :=
  (∃ rid, nameBase item = some rid) ∧
  (∃ c, Json.getKey item "credentials" = some c) ∧
  (∃ t, Json.getKey item "target" = some t) ∧
  (∃ p, Json.getKey item "port" = some p)

/-- Total read of an item's name base (meaningful when `validItem`). -/
def ridOf (item : Json) : String := (nameBase item).getD "imported"

/-- Total read of an item's field (meaningful when `validItem`). -/
def fieldOf (item : Json) (key : String) : Json :=
  (Json.getKey item key).getD .null

/-- The call sequence the loop issues when every item is valid and every
POST succeeds: credential POST then discovery POST per item, in file order,
the discovery payload carrying the `id` of the immediately preceding
credential response (`env.postResp k`). -/
def goodSeq (env : Env) : List Json → Nat → List Call
  | [], _ => []
  | item :: rest, k =>
    .postCred (credPayload (ridOf item) (fieldOf item "credentials")) ::
    .postDisc (discPayload (ridOf item) (fieldOf item "target")
        (fieldOf item "port") (getId (env.postResp k))) ::
    goodSeq env rest (k + 2)

/-- Is this call a credential-creation POST? -/
def isCredCall : Call → Bool
  | .postCred _ => true
  | _ => false

/-- Is this call a discovery-creation POST? -/
def isDiscCall : Call → Bool
  | .postDisc _ => true
  | _ => false

/-- The seeding calls (credential and discovery POSTs) of a trace. -/
def seedCalls (cs : List Call) : List Call :=
  cs.filter (fun c => isCredCall c || isDiscCall c)

/-- The login request body. -/
def loginBody (env : Env) : Json :=
  .obj [("username", .str env.adminUser), ("password", .str env.adminPass)]

/-- The messages printed by a run that gets past startup. -/
def startMsgs (env : Env) : List Msg :=
  [.waiting, .reachable, .loggingIn env.adminUser, .loginSuccessful,
   .readingSeed (seedFileName env)]

theorem poll_fst_le (pr : Nat → Option Resp) :
    ∀ fuel i, (poll pr i fuel).1 ≤ fuel := by
  intro fuel
  induction fuel with
  | zero => intro i; simp [poll]
  | succ n ih =>
    intro i
    cases h : pr i with
    | some r => simp [poll, h]
    | none => simpa [poll, h] using ih (i + 1)

theorem poll_succeeds_iff (pr : Nat → Option Resp) :
    ∀ fuel i, (poll pr i fuel).2.2 = true ↔ ∃ j, j < fuel ∧ (pr (i + j)).isSome := by
  intro fuel
  induction fuel with
  | zero => intro i; simp [poll]
  | succ n ih =>
    intro i
    cases h : pr i with
    | some r =>
      simp only [poll, h]
      exact ⟨fun _ => ⟨0, Nat.succ_pos n, by simp [h]⟩, fun _ => trivial⟩
    | none =>
      simp only [poll, h]
      constructor
      · intro hs
        obtain ⟨j, hj, hsome⟩ := (ih (i + 1)).mp hs
        exact ⟨j + 1, Nat.succ_lt_succ hj, by simpa [Nat.add_comm, Nat.add_left_comm, Nat.add_assoc] using hsome⟩
      · rintro ⟨j, hj, hsome⟩
        cases j with
        | zero => simp [h] at hsome
        | succ m =>
          refine (ih (i + 1)).mpr ⟨m, Nat.lt_of_succ_lt_succ hj, ?_⟩
          simpa [Nat.add_comm, Nat.add_left_comm, Nat.add_assoc] using hsome

theorem poll_all_fail (pr : Nat → Option Resp) :
    ∀ fuel i, (∀ j, j < fuel → pr (i + j) = none) →
      poll pr i fuel = (fuel, fuel, false) := by
  intro fuel
  induction fuel with
  | zero => intro i _; simp [poll]
  | succ n ih =>
    intro i hall
    have h0 : pr i = none := by simpa using hall 0 (Nat.succ_pos n)
    have hr : poll pr (i + 1) n = (n, n, false) := by
      refine ih (i + 1) ?_
      intro j hj
      have := hall (j + 1) (Nat.succ_lt_succ hj)
      simpa [Nat.add_comm, Nat.add_left_comm, Nat.add_assoc] using this
    simp [poll, h0, hr]

theorem poll_first_success (pr : Nat → Option Resp) :
    ∀ j fuel i r, j < fuel → pr (i + j) = some r →
      (∀ j2, j2 < j → pr (i + j2) = none) →
      poll pr i fuel = (j + 1, j, true) := by
  intro j
  induction j with
  | zero =>
    intro fuel i r hlt hsome _
    cases fuel with
    | zero => exact absurd hlt (Nat.not_lt_zero 0)
    | succ n => simp at hsome; simp [poll, hsome]
  | succ m ih =>
    intro fuel i r hlt hsome hbefore
    cases fuel with
    | zero => exact absurd hlt (Nat.not_lt_zero _)
    | succ n =>
      have h0 : pr i = none := by simpa using hbefore 0 (Nat.succ_pos m)
      have hr : poll pr (i + 1) n = (m + 1, m, true) := by
        refine ih n (i + 1) r (Nat.lt_of_succ_lt_succ hlt) ?_ ?_
        · simpa [Nat.add_comm, Nat.add_left_comm, Nat.add_assoc] using hsome
        · intro j2 hj2
          have := hbefore (j2 + 1) (Nat.succ_lt_succ hj2)
          simpa [Nat.add_comm, Nat.add_left_comm, Nat.add_assoc] using this
      simp [poll, h0, hr]

theorem doItem_all_ok (env : Env) (k : Nat) (item : Json) (rid : String)
    (creds target port : Json)
    (hr : nameBase item = some rid)
    (hc : Json.getKey item "credentials" = some creds)
    (htg : Json.getKey item "target" = some target)
    (hpt : Json.getKey item "port" = some port)
    (h1 : goodResp (env.postResp k)) (h2 : goodResp (env.postResp (k + 1))) :
    doItem env k item =
      ⟨[.postCred (credPayload rid creds),
        .postDisc (discPayload rid target port (getId (env.postResp k)))],
       [.creatingCred (ridShown item), .credCreated (getId (env.postResp k)),
        .creatingDisc (ridShown item), .discCreated (getId (env.postResp (k + 1)))],
       k + 2, true⟩ := by
  obtain ⟨hs1, v1, hv1⟩ := h1
  obtain ⟨hs2, v2, hv2⟩ := h2
  simp [doItem, hr, hc, htg, hpt, hv1, hv2, getId, not_not_intro hs1, not_not_intro hs2]

theorem doItem_cred_status_bad (env : Env) (k : Nat) (item : Json) (rid : String)
    (creds : Json)
    (hr : nameBase item = some rid)
    (hc : Json.getKey item "credentials" = some creds)
    (hbad : ¬ ((env.postResp k).status = 201 ∨ (env.postResp k).status = 200)) :
    doItem env k item =
      ⟨[.postCred (credPayload rid creds)],
       [.creatingCred (ridShown item), .credFailed (env.postResp k).text],
       k + 1, true⟩ := by
  simp [doItem, hr, hc, hbad]

theorem doItem_no_creds (env : Env) (k : Nat) (item : Json) (rid : String)
    (hr : nameBase item = some rid)
    (hc : Json.getKey item "credentials" = none) :
    doItem env k item = ⟨[], [], k, false⟩ := by
  simp [doItem, hr, hc]

theorem doItem_cred_no_id (env : Env) (k : Nat) (item : Json) (rid : String)
    (creds : Json)
    (hr : nameBase item = some rid)
    (hc : Json.getKey item "credentials" = some creds)
    (hs1 : (env.postResp k).status = 201 ∨ (env.postResp k).status = 200)
    (hid : Json.getKey (env.postResp k).body "id" = none) :
    doItem env k item =
      ⟨[.postCred (credPayload rid creds)], [.creatingCred (ridShown item)],
       k + 1, false⟩ := by
  simp [doItem, hr, hc, hid, not_not_intro hs1]

theorem doItem_no_target (env : Env) (k : Nat) (item : Json) (rid : String)
    (creds credId : Json)
    (hr : nameBase item = some rid)
    (hc : Json.getKey item "credentials" = some creds)
    (hs1 : (env.postResp k).status = 201 ∨ (env.postResp k).status = 200)
    (hid : Json.getKey (env.postResp k).body "id" = some credId)
    (htg : Json.getKey item "target" = none) :
    doItem env k item =
      ⟨[.postCred (credPayload rid creds)],
       [.creatingCred (ridShown item), .credCreated credId], k + 1, false⟩ := by
  simp [doItem, hr, hc, hid, htg, not_not_intro hs1]

theorem doItem_no_port (env : Env) (k : Nat) (item : Json) (rid : String)
    (creds credId target : Json)
    (hr : nameBase item = some rid)
    (hc : Json.getKey item "credentials" = some creds)
    (hs1 : (env.postResp k).status = 201 ∨ (env.postResp k).status = 200)
    (hid : Json.getKey (env.postResp k).body "id" = some credId)
    (htg : Json.getKey item "target" = some target)
    (hpt : Json.getKey item "port" = none) :
    doItem env k item =
      ⟨[.postCred (credPayload rid creds)],
       [.creatingCred (ridShown item), .credCreated credId], k + 1, false⟩ := by
  simp [doItem, hr, hc, hid, htg, hpt, not_not_intro hs1]

theorem doItem_disc_no_id (env : Env) (k : Nat) (item : Json) (rid : String)
    (creds credId target port : Json)
    (hr : nameBase item = some rid)
    (hc : Json.getKey item "credentials" = some creds)
    (hs1 : (env.postResp k).status = 201 ∨ (env.postResp k).status = 200)
    (hid : Json.getKey (env.postResp k).body "id" = some credId)
    (htg : Json.getKey item "target" = some target)
    (hpt : Json.getKey item "port" = some port)
    (hs2 : (env.postResp (k + 1)).status = 201 ∨ (env.postResp (k + 1)).status = 200)
    (hid2 : Json.getKey (env.postResp (k + 1)).body "id" = none) :
    doItem env k item =
      ⟨[.postCred (credPayload rid creds),
        .postDisc (discPayload rid target port credId)],
       [.creatingCred (ridShown item), .credCreated credId,
        .creatingDisc (ridShown item)], k + 2, false⟩ := by
  simp [doItem, hr, hc, hid, htg, hpt, hid2, not_not_intro hs1, not_not_intro hs2]

theorem procItems_cons (env : Env) (item : Json) (rest : List Json) (k : Nat) :
    procItems env (item :: rest) k =
      if (doItem env k item).ok then
        ((doItem env k item).calls ++ (procItems env rest (doItem env k item).nextIdx).1,
         (doItem env k item).msgs ++ (procItems env rest (doItem env k item).nextIdx).2.1,
         (procItems env rest (doItem env k item).nextIdx).2.2)
      else ((doItem env k item).calls, (doItem env k item).msgs, false) := rfl

theorem procItems_good (env : Env)
    (hg : ∀ j, goodResp (env.postResp j)) :
    ∀ (items : List Json) (k : Nat), (∀ item ∈ items, validItem item) →
      (procItems env items k).1 = goodSeq env items k ∧
      (procItems env items k).2.2 = true := by
  intro items
  induction items with
  | nil => intro k _; simp [procItems, goodSeq]
  | cons item rest ih =>
    intro k hv
    obtain ⟨⟨rid, hr⟩, ⟨creds, hc⟩, ⟨target, htg⟩, ⟨port, hpt⟩⟩ :=
      hv item (List.mem_cons_self item rest)
    have hd := doItem_all_ok env k item rid creds target port hr hc htg hpt
      (hg k) (hg (k + 1))
    have hrest := ih (k + 2) (fun x hx => hv x (List.mem_cons_of_mem item hx))
    rw [procItems_cons, hd]
    simp only [goodSeq]
    have hrid : ridOf item = rid := by simp [ridOf, hr]
    have hcf : fieldOf item "credentials" = creds := by simp [fieldOf, hc]
    have htf : fieldOf item "target" = target := by simp [fieldOf, htg]
    have hpf : fieldOf item "port" = port := by simp [fieldOf, hpt]
    simp [hrid, hcf, htf, hpf, hrest.1, hrest.2]

theorem run_unreachable (env : Env)
    (hp : (poll env.pollResp 0 10).2.2 = false) :
    run env = ⟨List.replicate (poll env.pollResp 0 10).1 Call.getLogin,
               [.waiting, .unreachable], (poll env.pollResp 0 10).2.1,
               .exited 1⟩ := by
  simp [run, hp]

theorem run_login_bad (env : Env)
    (hp : (poll env.pollResp 0 10).2.2 = true)
    (hl : env.loginResp.status ≠ 200) :
    run env = ⟨List.replicate (poll env.pollResp 0 10).1 Call.getLogin ++
                 [Call.postLogin (loginBody env)],
               [.waiting, .reachable, .loggingIn env.adminUser,
                .loginFailed env.loginResp.status env.loginResp.text],
               (poll env.pollResp 0 10).2.1, .exited 1⟩ := by
  simp [run, hp, hl, loginBody]

theorem run_ok_done (env : Env) (tok : Json) (items : List Json)
    (hp : (poll env.pollResp 0 10).2.2 = true)
    (hl : env.loginResp.status = 200)
    (ht : Json.getKey env.loginResp.body "token" = some tok)
    (hf : env.fileContent (seedFileName env) = some items)
    (hok : (procItems env items 0).2.2 = true) :
    run env = ⟨List.replicate (poll env.pollResp 0 10).1 Call.getLogin ++
                 [Call.postLogin (loginBody env)] ++ (procItems env items 0).1,
               startMsgs env ++ (procItems env items 0).2.1 ++ [.doneProcessing],
               (poll env.pollResp 0 10).2.1, .exited 0⟩ := by
  simp [run, hp, hl, ht, hf, hok, loginBody, startMsgs]

theorem run_ok_fatal (env : Env) (tok : Json) (items : List Json)
    (hp : (poll env.pollResp 0 10).2.2 = true)
    (hl : env.loginResp.status = 200)
    (ht : Json.getKey env.loginResp.body "token" = some tok)
    (hf : env.fileContent (seedFileName env) = some items)
    (hbad : (procItems env items 0).2.2 = false) :
    run env = ⟨List.replicate (poll env.pollResp 0 10).1 Call.getLogin ++
                 [Call.postLogin (loginBody env)] ++ (procItems env items 0).1,
               startMsgs env ++ (procItems env items 0).2.1,
               (poll env.pollResp 0 10).2.1, .fatal⟩ := by
  simp [run, hp, hl, ht, hf, hbad, loginBody, startMsgs]

theorem seedCalls_replicate_getLogin (n : Nat) :
    seedCalls (List.replicate n Call.getLogin) = [] := by
  induction n with
  | zero => rfl
  | succ m ih => simp [seedCalls, List.replicate, isCredCall, isDiscCall, ih]

theorem seedCalls_append (a b : List Call) :
    seedCalls (a ++ b) = seedCalls a ++ seedCalls b := by
  simp [seedCalls, List.filter_append]

theorem seedCalls_goodSeq (env : Env) :
    ∀ (items : List Json) (k : Nat),
      seedCalls (goodSeq env items k) = goodSeq env items k := by
  intro items
  induction items with
  | nil => intro k; rfl
  | cons item rest ih =>
    intro k
    simp [seedCalls, goodSeq, isCredCall, isDiscCall] at ih ⊢
    exact ih (k + 2)

theorem countP_cred_goodSeq (env : Env) :
    ∀ (items : List Json) (k : Nat),
      (goodSeq env items k).countP isCredCall = items.length := by
  intro items
  induction items with
  | nil => intro k; rfl
  | cons item rest ih =>
    intro k
    simp [goodSeq, List.countP_cons, isCredCall, isDiscCall, ih (k + 2)]

theorem countP_disc_goodSeq (env : Env) :
    ∀ (items : List Json) (k : Nat),
      (goodSeq env items k).countP isDiscCall = items.length := by
  intro items
  induction items with
  | nil => intro k; rfl
  | cons item rest ih =>
    intro k
    simp [goodSeq, List.countP_cons, isCredCall, isDiscCall, ih (k + 2)]

theorem countP_cred_replicate_getLogin (n : Nat) :
    (List.replicate n Call.getLogin).countP isCredCall = 0 := by
  induction n with
  | zero => rfl
  | succ m ih => simp [List.replicate, List.countP_cons, isCredCall, ih]

theorem countP_disc_replicate_getLogin (n : Nat) :
    (List.replicate n Call.getLogin).countP isDiscCall = 0 := by
  induction n with
  | zero => rfl
  | succ m ih => simp [List.replicate, List.countP_cons, isDiscCall, ih]

theorem run_file_bad (env : Env) (tok : Json)
    (hp : (poll env.pollResp 0 10).2.2 = true)
    (hl : env.loginResp.status = 200)
    (ht : Json.getKey env.loginResp.body "token" = some tok)
    (hf : env.fileContent (seedFileName env) = none) :
    run env = ⟨List.replicate (poll env.pollResp 0 10).1 Call.getLogin ++
                 [Call.postLogin (loginBody env)],
               startMsgs env, (poll env.pollResp 0 10).2.1, .fatal⟩ := by
  simp [run, hp, hl, ht, hf, loginBody, startMsgs]

theorem doItem_congr (env env2 : Env) (h : env2.postResp = env.postResp)
    (k : Nat) (item : Json) : doItem env2 k item = doItem env k item := by
  simp [doItem, h]

theorem procItems_congr (env env2 : Env) (h : env2.postResp = env.postResp) :
    ∀ (items : List Json) (k : Nat),
      procItems env2 items k = procItems env items k := by
  intro items
  induction items with
  | nil => intro k; rfl
  | cons item rest ih =>
    intro k
    rw [procItems_cons, procItems_cons, doItem_congr env env2 h, ih]

/-- The round-trip seed item named in the spec. -/
def hostItem : Json :=
  .obj [("request_id", .str "host1"), ("target", .str "10.0.0.5"),
        ("port", .num 5985),
        ("credentials", .obj [("user", .str "a"), ("pass", .str "b")])]

/-- Server up, login succeeds, the generic seed file holds `hostItem`, the
credential POST answers 200 with id "c-1", every later POST 201 with id
"d-1". -/
def envHost : Env :=
  ⟨fun _ => some ⟨200, .null, ""⟩, "admin", "admin",
   ⟨200, .obj [("token", .str "t")], ""⟩, false,
   fun f => if f = "poll_input.json" then some [hostItem] else none,
   fun k => if k = 0 then ⟨200, .obj [("id", .str "c-1")], ""⟩
            else ⟨201, .obj [("id", .str "d-1")], ""⟩⟩

/-- Every poll attempt raises `ConnectionError`. -/
def envDown : Env :=
  ⟨fun _ => none, "admin", "admin", ⟨200, .obj [("token", .str "t")], ""⟩,
   false, fun _ => none, fun _ => ⟨201, .obj [("id", .num 1)], ""⟩⟩

/-- Server up but login is rejected with a 401. -/
def envLogin401 : Env :=
  ⟨fun _ => some ⟨200, .null, ""⟩, "admin", "admin",
   ⟨401, .null, "bad credentials"⟩, true, fun _ => some [hostItem],
   fun _ => ⟨201, .obj [("id", .num 1)], ""⟩⟩

/-- Startup succeeds but every creation POST is refused with a 500. -/
def envCredFail : Env :=
  ⟨fun _ => some ⟨200, .null, ""⟩, "admin", "admin",
   ⟨200, .obj [("token", .str "t")], ""⟩, false,
   fun f => if f = "poll_input.json" then some [hostItem] else none,
   fun _ => ⟨500, .null, "server error"⟩⟩

/-- Startup succeeds but creation responses carry no `id` field. -/
def envNoId : Env :=
  ⟨fun _ => some ⟨200, .null, ""⟩, "admin", "admin",
   ⟨200, .obj [("token", .str "t")], ""⟩, false,
   fun f => if f = "poll_input.json" then some [hostItem] else none,
   fun _ => ⟨200, .obj [("status", .str "ok")], ""⟩⟩

/-- A seed item without `request_id`. -/
def anonItem : Json :=
  .obj [("target", .str "10.0.0.9"), ("port", .num 22),
        ("credentials", .obj [("user", .str "u")])]

/-- Startup succeeds; the seed file holds `anonItem`; POSTs succeed. -/
def envAnon : Env :=
  ⟨fun _ => some ⟨200, .null, ""⟩, "admin", "admin",
   ⟨200, .obj [("token", .str "t")], ""⟩, false,
   fun f => if f = "poll_input.json" then some [anonItem] else none,
   fun _ => ⟨201, .obj [("id", .num 7)], ""⟩⟩

/-- `poll_input_win_a.json` exists but neither seed file is readable. -/
def envBadFile : Env :=
  ⟨fun _ => some ⟨200, .null, ""⟩, "admin", "admin",
   ⟨200, .obj [("token", .str "t")], ""⟩, true, fun _ => none,
   fun _ => ⟨201, .obj [("id", .num 1)], ""⟩⟩

/-- A seed item with no `credentials` key. -/
def noCredsItem : Json :=
  .obj [("request_id", .str "x"), ("target", .str "10.0.0.1"), ("port", .num 1)]

/-- Startup succeeds; the seed file holds `noCredsItem`. -/
def envNoCreds : Env :=
  ⟨fun _ => some ⟨200, .null, ""⟩, "admin", "admin",
   ⟨200, .obj [("token", .str "t")], ""⟩, false,
   fun f => if f = "poll_input.json" then some [noCredsItem] else none,
   fun _ => ⟨201, .obj [("id", .num 1)], ""⟩⟩

/-- A seed item with credentials but no `target` key. -/
def noTargetItem : Json :=
  .obj [("request_id", .str "y"), ("port", .num 1),
        ("credentials", .obj [("user", .str "u")])]

/-- Startup succeeds; the seed file holds `noTargetItem`; POSTs succeed. -/
def envNoTarget : Env :=
  ⟨fun _ => some ⟨200, .null, ""⟩, "admin", "admin",
   ⟨200, .obj [("token", .str "t")], ""⟩, false,
   fun f => if f = "poll_input.json" then some [noTargetItem] else none,
   fun _ => ⟨201, .obj [("id", .num 9)], ""⟩⟩

/-- Claim C1: for a seed file of N items where every HTTP call succeeds
(poll reaches the server, login returns 200 with a token, every creation
POST returns 200/201 with an `id`), the run exits 0 and issues exactly N
credential-creation POSTs and N discovery-creation POSTs, interleaved in
file order (credential i, discovery i, credential i+1, ...), and the
discovery payload for item i carries as `credential_profile_id` exactly the
`id` returned for item i's credential-creation call (`goodSeq` spells out
this interleaved, id-linked sequence). -/
theorem C1_interleaved_success (env : Env) (tok : Json) (items : List Json)
    (hp : (poll env.pollResp 0 10).2.2 = true)
    (hl : env.loginResp.status = 200)
    (ht : Json.getKey env.loginResp.body "token" = some tok)
    (hf : env.fileContent (seedFileName env) = some items)
    (hv : ∀ item ∈ items, validItem item)
    (hg : ∀ j, goodResp (env.postResp j)) :
    (run env).outcome = .exited 0 ∧
    seedCalls (run env).calls = goodSeq env items 0 ∧
    (run env).calls.countP isCredCall = items.length ∧
    (run env).calls.countP isDiscCall = items.length := by
  have hpg := procItems_good env hg items 0 hv
  have hr := run_ok_done env tok items hp hl ht hf hpg.2
  rw [hr]
  refine ⟨rfl, ?_, ?_, ?_⟩
  · show seedCalls (List.replicate (poll env.pollResp 0 10).1 Call.getLogin ++
        [Call.postLogin (loginBody env)] ++ (procItems env items 0).1) =
      goodSeq env items 0
    rw [hpg.1, seedCalls_append, seedCalls_append, seedCalls_replicate_getLogin,
        seedCalls_goodSeq]
    rfl
  · show (List.replicate (poll env.pollResp 0 10).1 Call.getLogin ++
        [Call.postLogin (loginBody env)] ++ (procItems env items 0).1).countP
        isCredCall = items.length
    rw [hpg.1, List.countP_append, List.countP_append,
        countP_cred_replicate_getLogin, countP_cred_goodSeq]
    simp [isCredCall]
  · show (List.replicate (poll env.pollResp 0 10).1 Call.getLogin ++
        [Call.postLogin (loginBody env)] ++ (procItems env items 0).1).countP
        isDiscCall = items.length
    rw [hpg.1, List.countP_append, List.countP_append,
        countP_disc_replicate_getLogin, countP_disc_goodSeq]
    simp [isDiscCall]

/-- Witness for C1 on the single-item file `[hostItem]` with every call
succeeding. -/
theorem C1_interleaved_success_witness :
    (run envHost).outcome = .exited 0 ∧
    seedCalls (run envHost).calls = goodSeq envHost [hostItem] 0 ∧
    (run envHost).calls.countP isCredCall = 1 ∧
    (run envHost).calls.countP isDiscCall = 1 := by
  have h := C1_interleaved_success envHost (.str "t") [hostItem] rfl rfl rfl rfl
    (by
      intro item hitem
      rw [List.mem_singleton] at hitem
      subst hitem
      exact ⟨⟨"host1", rfl⟩, ⟨_, rfl⟩, ⟨_, rfl⟩, ⟨_, rfl⟩⟩)
    (by
      intro j
      cases j with
      | zero => exact ⟨Or.inr rfl, ⟨.str "c-1", rfl⟩⟩
      | succ m => exact ⟨Or.inl rfl, ⟨.str "d-1", rfl⟩⟩)
  exact h

/-- Claim C2: for the item `hostItem` = `{"request_id": "host1", "target":
"10.0.0.5", "port": 5985, "credentials": {"user": "a", "pass": "b"}}`,
the credential payload sent is `{"name": "host1_creds", "protocol":
"winrm", "payload": "\x7b\"user\": \"a\", \"pass\": \"b\"\x7d"}` (the
credentials dict serialized to a JSON string), and — the server answering
`{"id": "c-1"}` — the discovery payload sent is `{"name":
"host1_discovery", "target": "10.0.0.5", "port": 5985,
"credential_profile_id": "c-1", "auto_provision": true, "auto_run":
true}`. -/
theorem C2_round_trip :
    seedCalls (run envHost).calls =
      [.postCred (.obj [("name", .str "host1_creds"),
                        ("protocol", .str "winrm"),
                        ("payload", .str "\x7b\"user\": \"a\", \"pass\": \"b\"\x7d")]),
       .postDisc (.obj [("name", .str "host1_discovery"),
                        ("target", .str "10.0.0.5"),
                        ("port", .num 5985),
                        ("credential_profile_id", .str "c-1"),
                        ("auto_provision", .bool true),
                        ("auto_run", .bool true)])] := rfl

/-- Claim C3: the readiness poll makes at most 10 GET attempts; it succeeds
exactly when some of the first 10 attempts returns a response (no
connection exception — the status is never examined, so any status counts);
on the first responsive attempt j it stops having made j+1 attempts and j
one-second sleeps; and when all 10 attempts fail the run exits 1 with only
the 10 readiness GETs issued — no login, credential or discovery call. -/
theorem C3_readiness_poll :
    (∀ env : Env, (poll env.pollResp 0 10).1 ≤ 10) ∧
    (∀ env : Env, ((poll env.pollResp 0 10).2.2 = true ↔
        ∃ j, j < 10 ∧ (env.pollResp j).isSome)) ∧
    (∀ (env : Env) (j : Nat) (r : Resp), j < 10 → env.pollResp j = some r →
        (∀ i, i < j → env.pollResp i = none) →
        poll env.pollResp 0 10 = (j + 1, j, true)) ∧
    (∀ env : Env, (∀ i, i < 10 → env.pollResp i = none) →
        run env = ⟨List.replicate 10 Call.getLogin, [.waiting, .unreachable],
                   10, .exited 1⟩) := by
  refine ⟨fun env => poll_fst_le _ 10 0, fun env => ?_,
          fun env j r hj hs hb => ?_, fun env hall => ?_⟩
  · simpa using poll_succeeds_iff env.pollResp 10 0
  · simpa using poll_first_success env.pollResp j 10 0 r hj
      (by simpa using hs) (by intro j2 hj2; simpa using hb j2 hj2)
  · have hpoll : poll env.pollResp 0 10 = (10, 10, false) :=
      poll_all_fail env.pollResp 10 0 (by intro j hj; simpa using hall j hj)
    have hrun := run_unreachable env (by rw [hpoll])
    rw [hpoll] at hrun
    exact hrun

/-- Witness for C3 on an environment whose every poll attempt fails. -/
theorem C3_readiness_poll_witness :
    run envDown = ⟨List.replicate 10 Call.getLogin, [.waiting, .unreachable],
                   10, .exited 1⟩ :=
  C3_readiness_poll.2.2.2 envDown (fun _ _ => rfl)

/-- Claim C4: when the login POST returns a status other than 200 (the poll
having succeeded), the run prints the response body, exits 1, issues no
credential or discovery call, and its entire result is already determined
by the poll responses, the configured account and the login response — the
seed file (existence and content) and any later POST are never consulted. -/
theorem C4_login_failure (env : Env)
    (hp : (poll env.pollResp 0 10).2.2 = true)
    (hl : env.loginResp.status ≠ 200) :
    (run env).outcome = .exited 1 ∧
    (run env).msgs = [.waiting, .reachable, .loggingIn env.adminUser,
                      .loginFailed env.loginResp.status env.loginResp.text] ∧
    seedCalls (run env).calls = [] ∧
    (∀ env2 : Env, env2.pollResp = env.pollResp → env2.adminUser = env.adminUser →
       env2.adminPass = env.adminPass → env2.loginResp = env.loginResp →
       run env2 = run env) := by
  have hr := run_login_bad env hp hl
  refine ⟨by rw [hr], by rw [hr], ?_, ?_⟩
  · rw [hr]
    show seedCalls (List.replicate (poll env.pollResp 0 10).1 Call.getLogin ++
        [Call.postLogin (loginBody env)]) = []
    rw [seedCalls_append, seedCalls_replicate_getLogin]
    rfl
  · intro env2 h1 h2 h3 h4
    have hp2 : (poll env2.pollResp 0 10).2.2 = true := by rw [h1]; exact hp
    have hl2 : env2.loginResp.status ≠ 200 := by rw [h4]; exact hl
    rw [run_login_bad env2 hp2 hl2, hr]
    simp [loginBody, h1, h2, h3, h4]

/-- Witness for C4 on a 401 login response. -/
theorem C4_login_failure_witness :
    (run envLogin401).outcome = .exited 1 ∧
    (run envLogin401).msgs = [.waiting, .reachable, .loggingIn "admin",
                              .loginFailed 401 "bad credentials"] ∧
    seedCalls (run envLogin401).calls = [] := by
  have h := C4_login_failure envLogin401 rfl (by decide)
  exact ⟨h.1, h.2.1, h.2.2.1⟩

/-- Claim C5: when the credential-creation POST for an item returns a
status outside 200/201, no discovery POST is issued for that item and the
loop continues with the remaining items exactly as plain `procItems` on
them — the failed item contributes only its one POST and two messages, and
nothing else about it reaches the rest of the run. -/
theorem C5_cred_failure_skips (env : Env) (k : Nat) (item : Json)
    (rest : List Json) (rid : String) (creds : Json)
    (hr : nameBase item = some rid)
    (hc : Json.getKey item "credentials" = some creds)
    (hbad : ¬ ((env.postResp k).status = 201 ∨ (env.postResp k).status = 200)) :
    procItems env (item :: rest) k =
      (Call.postCred (credPayload rid creds) :: (procItems env rest (k + 1)).1,
       Msg.creatingCred (ridShown item) :: Msg.credFailed (env.postResp k).text ::
         (procItems env rest (k + 1)).2.1,
       (procItems env rest (k + 1)).2.2) := by
  rw [procItems_cons, doItem_cred_status_bad env k item rid creds hr hc hbad]
  simp

/-- Witness for C5: a 500 on the credential POST of `hostItem`. -/
theorem C5_cred_failure_skips_witness :
    procItems envCredFail [hostItem] 0 =
      ([Call.postCred (credPayload "host1"
          (.obj [("user", .str "a"), ("pass", .str "b")]))],
       [Msg.creatingCred (.str "host1"), Msg.credFailed "server error"],
       true) := by
  have h := C5_cred_failure_skips envCredFail 0 hostItem [] "host1"
    (.obj [("user", .str "a"), ("pass", .str "b")]) rfl rfl (by decide)
  exact h

/-- Claim C6: when startup succeeds and the loop runs off the end of the
seed file without an unhandled exception (each item either fully processed
or skipped after a failed POST), the run prints the completion message as
its last output and exits 0 — per-item failures never change the exit
code. -/
theorem C6_completion (env : Env) (tok : Json) (items : List Json)
    (hp : (poll env.pollResp 0 10).2.2 = true)
    (hl : env.loginResp.status = 200)
    (ht : Json.getKey env.loginResp.body "token" = some tok)
    (hf : env.fileContent (seedFileName env) = some items)
    (hok : (procItems env items 0).2.2 = true) :
    (run env).outcome = .exited 0 ∧
    (run env).msgs = startMsgs env ++ (procItems env items 0).2.1 ++
      [Msg.doneProcessing] := by
  have hr := run_ok_done env tok items hp hl ht hf hok
  exact ⟨by rw [hr], by rw [hr]⟩

/-- Witness for C6: the only item's credential POST fails with a 500, yet
the run prints the completion message and exits 0. -/
theorem C6_completion_witness :
    (run envCredFail).outcome = .exited 0 ∧
    (run envCredFail).msgs = startMsgs envCredFail ++
      (procItems envCredFail [hostItem] 0).2.1 ++ [Msg.doneProcessing] :=
  C6_completion envCredFail (.str "t") [hostItem] rfl rfl rfl rfl rfl

/-- Claim C7: a creation POST that returns a success status (200 or 201)
whose JSON body lacks the `id` field is an unhandled error: the item's
processing stops at the extraction, no later item is processed (the loop's
calls end there), and the run's outcome is `fatal` — there is no
skip-and-continue for this case, for the credential POST (first conjunct)
and the discovery POST (second conjunct) alike. -/
theorem C7_missing_id_fatal :
    (∀ (env : Env) (k : Nat) (item : Json) (rest : List Json) (rid : String)
       (creds : Json),
       nameBase item = some rid →
       Json.getKey item "credentials" = some creds →
       ((env.postResp k).status = 201 ∨ (env.postResp k).status = 200) →
       Json.getKey (env.postResp k).body "id" = none →
       procItems env (item :: rest) k =
         ([Call.postCred (credPayload rid creds)],
          [Msg.creatingCred (ridShown item)], false)) ∧
    (∀ (env : Env) (k : Nat) (item : Json) (rest : List Json) (rid : String)
       (creds credId target port : Json),
       nameBase item = some rid →
       Json.getKey item "credentials" = some creds →
       ((env.postResp k).status = 201 ∨ (env.postResp k).status = 200) →
       Json.getKey (env.postResp k).body "id" = some credId →
       Json.getKey item "target" = some target →
       Json.getKey item "port" = some port →
       ((env.postResp (k + 1)).status = 201 ∨ (env.postResp (k + 1)).status = 200) →
       Json.getKey (env.postResp (k + 1)).body "id" = none →
       procItems env (item :: rest) k =
         ([Call.postCred (credPayload rid creds),
           Call.postDisc (discPayload rid target port credId)],
          [Msg.creatingCred (ridShown item), Msg.credCreated credId,
           Msg.creatingDisc (ridShown item)], false)) ∧
    (∀ (env : Env) (tok : Json) (items : List Json),
       (poll env.pollResp 0 10).2.2 = true →
       env.loginResp.status = 200 →
       Json.getKey env.loginResp.body "token" = some tok →
       env.fileContent (seedFileName env) = some items →
       (procItems env items 0).2.2 = false →
       (run env).outcome = .fatal) := by
  refine ⟨?_, ?_, ?_⟩
  · intro env k item rest rid creds hr hc hs hid
    rw [procItems_cons, doItem_cred_no_id env k item rid creds hr hc hs hid]
    rfl
  · intro env k item rest rid creds credId target port hr hc hs hid htg hpt hs2 hid2
    rw [procItems_cons,
        doItem_disc_no_id env k item rid creds credId target port hr hc hs hid htg hpt hs2 hid2]
    rfl
  · intro env tok items hp hl ht hf hbad
    rw [run_ok_fatal env tok items hp hl ht hf hbad]

/-- Witness for C7: a 200 credential response without `id` aborts the run
fatally after one POST. -/
theorem C7_missing_id_fatal_witness :
    procItems envNoId [hostItem] 0 =
      ([Call.postCred (credPayload "host1"
          (.obj [("user", .str "a"), ("pass", .str "b")]))],
       [Msg.creatingCred (.str "host1")], false) ∧
    (run envNoId).outcome = .fatal :=
  ⟨C7_missing_id_fatal.1 envNoId 0 hostItem []
     "host1" (.obj [("user", .str "a"), ("pass", .str "b")])
     rfl rfl (Or.inr rfl) rfl,
   C7_missing_id_fatal.2.2 envNoId (.str "t") [hostItem] rfl rfl rfl rfl rfl⟩

/-- Claim C8: a seed item lacking `request_id` is seeded with the defaulted
names — the credential payload's name is `"imported_creds"` and the
discovery payload's name is `"imported_discovery"`. -/
theorem C8_default_names (env : Env) (k : Nat) (kvs : List (String × Json))
    (creds target port : Json)
    (hnone : lookupField kvs "request_id" = none)
    (hc : Json.getKey (.obj kvs) "credentials" = some creds)
    (htg : Json.getKey (.obj kvs) "target" = some target)
    (hpt : Json.getKey (.obj kvs) "port" = some port)
    (h1 : goodResp (env.postResp k)) (h2 : goodResp (env.postResp (k + 1))) :
    (doItem env k (.obj kvs)).calls =
      [Call.postCred (.obj [("name", .str "imported_creds"),
                            ("protocol", .str "winrm"),
                            ("payload", .str (dumps creds))]),
       Call.postDisc (.obj [("name", .str "imported_discovery"),
                            ("target", target), ("port", port),
                            ("credential_profile_id", getId (env.postResp k)),
                            ("auto_provision", .bool true),
                            ("auto_run", .bool true)])] := by
  have hr : nameBase (.obj kvs) = some "imported" := by
    simp [nameBase, pyGet, hnone]
  rw [doItem_all_ok env k (.obj kvs) "imported" creds target port hr hc htg hpt h1 h2]
  rfl

/-- Witness for C8 on `anonItem`, which has no `request_id`. -/
theorem C8_default_names_witness :
    (doItem envAnon 0 anonItem).calls =
      [Call.postCred (.obj [("name", .str "imported_creds"),
                            ("protocol", .str "winrm"),
                            ("payload", .str "\x7b\"user\": \"u\"\x7d")]),
       Call.postDisc (.obj [("name", .str "imported_discovery"),
                            ("target", .str "10.0.0.9"), ("port", .num 22),
                            ("credential_profile_id", .num 7),
                            ("auto_provision", .bool true),
                            ("auto_run", .bool true)])] := by
  have h := C8_default_names envAnon 0
    [("target", .str "10.0.0.9"), ("port", .num 22),
     ("credentials", .obj [("user", .str "u")])]
    (.obj [("user", .str "u")]) (.str "10.0.0.9") (.num 22)
    rfl rfl rfl rfl ⟨Or.inl rfl, ⟨.num 7, rfl⟩⟩ ⟨Or.inl rfl, ⟨.num 7, rfl⟩⟩
  exact h

/-- Claim C9: the run reads `poll_input_win_a.json` when that file exists
and `poll_input.json` otherwise; when the chosen file is missing or not
valid JSON the run dies fatally having issued no seeding call; and (last
conjunct) the run's result depends on the file system only through the
existence flag and the chosen file's content — no other file is read. -/
theorem C9_seed_file_choice (env : Env) (tok : Json)
    (hp : (poll env.pollResp 0 10).2.2 = true)
    (hl : env.loginResp.status = 200)
    (ht : Json.getKey env.loginResp.body "token" = some tok) :
    (env.winFileExists = true → seedFileName env = "poll_input_win_a.json") ∧
    (env.winFileExists = false → seedFileName env = "poll_input.json") ∧
    (env.fileContent (seedFileName env) = none →
       (run env).outcome = .fatal ∧ seedCalls (run env).calls = [] ∧
       (run env).msgs = startMsgs env) ∧
    (∀ env2 : Env, env2.pollResp = env.pollResp → env2.adminUser = env.adminUser →
       env2.adminPass = env.adminPass → env2.loginResp = env.loginResp →
       env2.winFileExists = env.winFileExists → env2.postResp = env.postResp →
       env2.fileContent (seedFileName env) = env.fileContent (seedFileName env) →
       run env2 = run env) := by
  refine ⟨fun hw => by simp [seedFileName, hw], fun hw => by simp [seedFileName, hw],
          fun hf => ?_, ?_⟩
  · have hr := run_file_bad env tok hp hl ht hf
    refine ⟨by rw [hr], ?_, by rw [hr]⟩
    rw [hr]
    show seedCalls (List.replicate (poll env.pollResp 0 10).1 Call.getLogin ++
        [Call.postLogin (loginBody env)]) = []
    rw [seedCalls_append, seedCalls_replicate_getLogin]
    rfl
  · intro env2 h1 h2 h3 h4 h5 h6 h7
    have hsf : seedFileName env2 = seedFileName env := by simp [seedFileName, h5]
    have hp2 : (poll env2.pollResp 0 10).2.2 = true := by rw [h1]; exact hp
    have hl2 : env2.loginResp.status = 200 := by rw [h4]; exact hl
    have ht2 : Json.getKey env2.loginResp.body "token" = some tok := by
      rw [h4]; exact ht
    cases hfc : env.fileContent (seedFileName env) with
    | none =>
      have hfc2 : env2.fileContent (seedFileName env2) = none := by
        rw [hsf, h7, hfc]
      rw [run_file_bad env2 tok hp2 hl2 ht2 hfc2, run_file_bad env tok hp hl ht hfc]
      simp [loginBody, startMsgs, hsf, h1, h2, h3]
    | some items =>
      have hfc2 : env2.fileContent (seedFileName env2) = some items := by
        rw [hsf, h7, hfc]
      have hpi : procItems env2 items 0 = procItems env items 0 :=
        procItems_congr env env2 h6 items 0
      cases hok : (procItems env items 0).2.2 with
      | true =>
        rw [run_ok_done env2 tok items hp2 hl2 ht2 hfc2 (by rw [hpi]; exact hok),
            run_ok_done env tok items hp hl ht hfc hok]
        simp [loginBody, startMsgs, hsf, h1, h2, h3, hpi]
      | false =>
        rw [run_ok_fatal env2 tok items hp2 hl2 ht2 hfc2 (by rw [hpi]; exact hok),
            run_ok_fatal env tok items hp hl ht hfc hok]
        simp [loginBody, startMsgs, hsf, h1, h2, h3, hpi]

/-- Witness for C9: `poll_input_win_a.json` exists but no file is
readable. -/
theorem C9_seed_file_choice_witness :
    seedFileName envBadFile = "poll_input_win_a.json" ∧
    (run envBadFile).outcome = .fatal ∧
    seedCalls (run envBadFile).calls = [] := by
  have h := C9_seed_file_choice envBadFile (.str "t") rfl rfl rfl
  have h3 := h.2.2.1 rfl
  exact ⟨h.1 rfl, h3.1, h3.2.1⟩

/-- Claim C10 (implicit): a seed item missing a required field other than
`request_id` aborts the whole run with an unhandled KeyError rather than
being skipped: a missing `credentials` key kills the run before any call
is made for that item (first conjunct), while a missing `target` or a
missing `port` key kills it after the item's credential profile was
already created (second and third conjuncts: the credential POST is in the
trace, no discovery POST follows, and the remaining items contribute
nothing); in each case the loop reports failure and the run's outcome is
`fatal` (last conjunct). -/
theorem C10_missing_field_aborts :
    (∀ (env : Env) (k : Nat) (item : Json) (rest : List Json) (rid : String),
       nameBase item = some rid →
       Json.getKey item "credentials" = none →
       procItems env (item :: rest) k = ([], [], false)) ∧
    (∀ (env : Env) (k : Nat) (item : Json) (rest : List Json) (rid : String)
       (creds credId : Json),
       nameBase item = some rid →
       Json.getKey item "credentials" = some creds →
       ((env.postResp k).status = 201 ∨ (env.postResp k).status = 200) →
       Json.getKey (env.postResp k).body "id" = some credId →
       Json.getKey item "target" = none →
       procItems env (item :: rest) k =
         ([Call.postCred (credPayload rid creds)],
          [Msg.creatingCred (ridShown item), Msg.credCreated credId], false)) ∧
    (∀ (env : Env) (k : Nat) (item : Json) (rest : List Json) (rid : String)
       (creds credId target : Json),
       nameBase item = some rid →
       Json.getKey item "credentials" = some creds →
       ((env.postResp k).status = 201 ∨ (env.postResp k).status = 200) →
       Json.getKey (env.postResp k).body "id" = some credId →
       Json.getKey item "target" = some target →
       Json.getKey item "port" = none →
       procItems env (item :: rest) k =
         ([Call.postCred (credPayload rid creds)],
          [Msg.creatingCred (ridShown item), Msg.credCreated credId], false)) ∧
    (∀ (env : Env) (tok : Json) (items : List Json),
       (poll env.pollResp 0 10).2.2 = true →
       env.loginResp.status = 200 →
       Json.getKey env.loginResp.body "token" = some tok →
       env.fileContent (seedFileName env) = some items →
       (procItems env items 0).2.2 = false →
       (run env).outcome = .fatal) := by
  refine ⟨?_, ?_, ?_, ?_⟩
  · intro env k item rest rid hr hc
    rw [procItems_cons, doItem_no_creds env k item rid hr hc]
    rfl
  · intro env k item rest rid creds credId hr hc hs hid htg
    rw [procItems_cons, doItem_no_target env k item rid creds credId hr hc hs hid htg]
    rfl
  · intro env k item rest rid creds credId target hr hc hs hid htg hpt
    rw [procItems_cons, doItem_no_port env k item rid creds credId target hr hc hs hid htg hpt]
    rfl
  · intro env tok items hp hl ht hf hbad
    rw [run_ok_fatal env tok items hp hl ht hf hbad]

/-- Witness for C10: an item without `credentials` makes zero calls and the
run is fatal; an item without `target` makes exactly the credential POST
and the run is fatal. -/
theorem C10_missing_field_aborts_witness :
    procItems envNoCreds [noCredsItem] 0 = ([], [], false) ∧
    (run envNoCreds).outcome = .fatal ∧
    procItems envNoTarget [noTargetItem] 0 =
      ([Call.postCred (credPayload "y" (.obj [("user", .str "u")]))],
       [Msg.creatingCred (.str "y"), Msg.credCreated (.num 9)], false) ∧
    (run envNoTarget).outcome = .fatal :=
  ⟨C10_missing_field_aborts.1 envNoCreds 0 noCredsItem [] "x" rfl rfl,
   C10_missing_field_aborts.2.2.2 envNoCreds (.str "t") [noCredsItem] rfl rfl rfl rfl rfl,
   C10_missing_field_aborts.2.1 envNoTarget 0 noTargetItem [] "y"
     (.obj [("user", .str "u")]) (.num 9) rfl rfl (Or.inl rfl) rfl rfl,
   C10_missing_field_aborts.2.2.2 envNoTarget (.str "t") [noTargetItem] rfl rfl rfl rfl rfl⟩

end Seed
